import Mathlib

/-!
Verification of the nutrient-estimation engine in `h.py`.

The engine's pure core is embedded shallowly: Python floats become exact
rationals (`ℚ`), Python strings become `String`, the insertion-ordered
Python `dict` becomes an association list `List (String × Req)` with the
dict-assignment operation `dictSet`, and Python's banker's rounding
`round(x, n)` becomes `pyRound`.
-/

namespace H

/-- A micronutrient requirement: (value, unit, note), as stored in the
Python dict `d[nutrient] = (value, unit, note)`. -/
abbrev Req := ℚ × String × String

/-- Embeds `calc_bmr` (h.py lines 65-69), the Mifflin-St Jeor formula:
the male branch fires only on the literal string "male". -/
def calc_bmr (sex : String) (weight height age : ℚ) : ℚ :=
  if sex = "male" then
    10 * weight + 6.25 * height - 5 * age + 5
  else
    10 * weight + 6.25 * height - 5 * age - 161

/-- Embeds the dict lookup `activity_factors.get(activity, 1.375)`
(h.py lines 71-77 and 80). -/
def activityFactor (activity : String) : ℚ :=
  if activity = "sedentary" then 1.2
  else if activity = "light" then 1.375
  else if activity = "moderate" then 1.55
  else if activity = "active" then 1.725
  else if activity = "very_active" then 1.9
  else 1.375

/-- Embeds `calc_tdee` (h.py lines 79-86). -/
def calc_tdee (bmr : ℚ) (activity goal : String) : ℚ :=
  let tdee := bmr * activityFactor activity
  if goal = "lose" then tdee * 0.85
  else if goal = "gain" then tdee * 1.10
  else tdee

/-- Round a rational to the nearest integer, ties to even, as Python's
built-in `round` does. -/
def roundHalfEven (x : ℚ) : ℤ :=
  let n := ⌊x⌋
  let r := x - n
  if r < 1/2 then n
  else if 1/2 < r then n + 1
  else if n % 2 = 0 then n else n + 1

/-- Python's `round(x, ndigits)` on exact values. -/
def pyRound (x : ℚ) (ndigits : ℕ) : ℚ :=
  (roundHalfEven (x * 10 ^ ndigits) : ℚ) / 10 ^ ndigits

/-- The dictionary returned by `calc_macros`. -/
structure MacroTargets where
  protein_g_per_day : ℚ
  protein_g_per_kg : ℚ
  deriving DecidableEq, Repr

/-- The sequential updates of `base_protein` in `calc_macros`
(h.py lines 91-97). -/
def macroProteinRate (activity goal : String) : ℚ :=
  let base0 : ℚ := 0.8
  let base1 := if activity = "moderate" ∨ activity = "active" ∨ activity = "very_active"
    then 1.2 else base0
  let base2 := if goal = "gain" then base1 + 0.3 else base1
  if goal = "lose" then base2 + 0.2 else base2

/-- Embeds `calc_macros` (h.py lines 89-102): the final `base_protein`
followed by the two roundings. -/
def calc_macros (weight : ℚ) (activity goal : String) : MacroTargets :=
  { protein_g_per_day := pyRound (macroProteinRate activity goal * weight) 1
    protein_g_per_kg := pyRound (macroProteinRate activity goal) 2 }

/-- Embeds `fat_kcal = tdee * 0.30` (h.py line 199). -/
def fat_kcal (tdee : ℚ) : ℚ := tdee * 0.30

/-- Embeds `carbs_kcal = tdee - (protein_g * 4) - fat_kcal` (h.py line 201). -/
def carbs_kcal (tdee protein_g : ℚ) : ℚ := tdee - protein_g * 4 - fat_kcal tdee

/-- Embeds `carbs_g = max(0, carbs_kcal / 4)` (h.py line 202). -/
def carbs_g (tdee protein_g : ℚ) : ℚ := max 0 (carbs_kcal tdee protein_g / 4)

/-- Python dict assignment `d[k] = v` on an insertion-ordered association
list: replace in place when the key is present, append otherwise. -/
def dictSet (d : List (String × Req)) (k : String) (v : Req) : List (String × Req) :=
  if d.any (fun p => p.1 == k) then
    d.map (fun p => if p.1 = k then (k, v) else p)
  else d ++ [(k, v)]

/-- The vitamin block of `base_micronutrient_table` (h.py lines 110-138). -/
def vitaminEntries (sex : String) : List (String × Req) :=
  if sex = "male" then
    [("Vitamin A", (900, "µg RAE", "Adult male RDA")),
     ("Vitamin C", (90, "mg", "")),
     ("Vitamin D", (15, "µg (600 IU)", "")),
     ("Vitamin E", (15, "mg", "")),
     ("Vitamin K", (120, "µg", "")),
     ("Thiamin (B1)", (1.2, "mg", "")),
     ("Riboflavin (B2)", (1.3, "mg", "")),
     ("Niacin (B3)", (16, "mg NE", "")),
     ("Vitamin B6", (1.3, "mg", "may increase with age")),
     ("Folate (B9)", (400, "µg DFE", "")),
     ("Vitamin B12", (2.4, "µg", "")),
     ("Pantothenic acid (B5)", (5, "mg", "")),
     ("Biotin (B7)", (30, "µg", ""))]
  else
    [("Vitamin A", (700, "µg RAE", "Adult female RDA")),
     ("Vitamin C", (75, "mg", "")),
     ("Vitamin D", (15, "µg (600 IU)", "")),
     ("Vitamin E", (15, "mg", "")),
     ("Vitamin K", (90, "µg", "")),
     ("Thiamin (B1)", (1.1, "mg", "")),
     ("Riboflavin (B2)", (1.1, "mg", "")),
     ("Niacin (B3)", (14, "mg NE", "")),
     ("Vitamin B6", (1.3, "mg", "")),
     ("Folate (B9)", (400, "µg DFE", "")),
     ("Vitamin B12", (2.4, "µg", "")),
     ("Pantothenic acid (B5)", (5, "mg", "")),
     ("Biotin (B7)", (30, "µg", ""))]

/-- The mineral block of `base_micronutrient_table` (h.py lines 140-168). -/
def mineralEntries (sex : String) : List (String × Req) :=
  if sex = "male" then
    [("Calcium", (1000, "mg", "Adults 19-50")),
     ("Iron", (8, "mg", "Men")),
     ("Magnesium", (400, "mg", "Adult male")),
     ("Phosphorus", (700, "mg", "")),
     ("Potassium", (3400, "mg", "AI")),
     ("Sodium", (1500, "mg", "AI (upper limits higher)")),
     ("Zinc", (11, "mg", "")),
     ("Copper", (0.9, "mg", "")),
     ("Manganese", (2.3, "mg", "")),
     ("Selenium", (55, "µg", "")),
     ("Chromium", (35, "µg", "")),
     ("Iodine", (150, "µg", "")),
     ("Fluoride", (4, "mg", "AI"))]
  else
    [("Calcium", (1000, "mg", "Adults 19-50")),
     ("Iron", (18, "mg", "Women of reproductive age")),
     ("Magnesium", (310, "mg", "Adult female")),
     ("Phosphorus", (700, "mg", "")),
     ("Potassium", (2600, "mg", "AI")),
     ("Sodium", (1500, "mg", "AI (upper limits higher)")),
     ("Zinc", (8, "mg", "")),
     ("Copper", (0.9, "mg", "")),
     ("Manganese", (1.8, "mg", "")),
     ("Selenium", (55, "µg", "")),
     ("Chromium", (25, "µg", "")),
     ("Iodine", (150, "µg", "")),
     ("Fluoride", (3, "mg", "AI"))]

/-- Embeds `base_micronutrient_table` (h.py lines 107-186): the base dict
built key by key (vitamins then minerals), then the three conditional
override blocks, each guarded by its flag AND the literal sex "female". -/
def base_micronutrient_table (sex : String) (age : ℤ)
    (menstruating pregnant breastfeeding : Bool) : List (String × Req) :=
  let _ := age
  let d0 := vitaminEntries sex ++ mineralEntries sex
  let d1 := if menstruating = true ∧ sex = "female" then
      dictSet d0 "Iron" (18, "mg", "Increased due to menstrual losses")
    else d0
  let d2 := if pregnant = true ∧ sex = "female" then
      dictSet (dictSet (dictSet (dictSet (dictSet d1
        "Folate (B9)" (600, "µg DFE", "Pregnancy increased need"))
        "Iron" (27, "mg", "Pregnancy increased need"))
        "Calcium" (1000, "mg", "Pregnancy recommendation"))
        "Vitamin D" (15, "µg (600 IU)", "May be increased based on status"))
        "Iodine" (220, "µg", "Pregnancy increased need")
    else d1
  let d3 := if breastfeeding = true ∧ sex = "female" then
      dictSet (dictSet (dictSet (dictSet d2
        "Folate (B9)" (500, "µg DFE", "Lactation increased need"))
        "Iron" (9, "mg", "Postpartum needs lower than pregnancy"))
        "Vitamin D" (15, "µg (600 IU)", ""))
        "Iodine" (290, "µg", "Lactation increased need")
    else d2
  d3

/-- Look up one nutrient's (value, unit, note) triple, as `d[nut]`. -/
def tableGet (d : List (String × Req)) (nut : String) : Option Req :=
  d.lookup nut

/-- The fixed key list: the 13 vitamins then the 13 minerals, in source
insertion order. -/
def nutrientKeys : List String :=
  ["Vitamin A", "Vitamin C", "Vitamin D", "Vitamin E", "Vitamin K",
   "Thiamin (B1)", "Riboflavin (B2)", "Niacin (B3)", "Vitamin B6",
   "Folate (B9)", "Vitamin B12", "Pantothenic acid (B5)", "Biotin (B7)",
   "Calcium", "Iron", "Magnesium", "Phosphorus", "Potassium", "Sodium",
   "Zinc", "Copper", "Manganese", "Selenium", "Chromium", "Iodine",
   "Fluoride"]

/-- Spec-side protein rate of claim C6: 0.8 g/kg replaced by 1.2 g/kg on
the three upper activity tiers, then +0.3 for goal "gain" and +0.2 for
goal "lose". -/
def claimProteinRate (activity goal : String) : ℚ :=
  (if activity = "moderate" ∨ activity = "active" ∨ activity = "very_active"
    then 1.2 else 0.8)
  + (if goal = "gain" then 0.3 else 0)
  + (if goal = "lose" then 0.2 else 0)

/-- Spec-side carbohydrate formula of claim C5:
max(0, (TDEE − protein×4 − TDEE×0.30)/4). -/
def claimCarbs (tdee protein_g : ℚ) : ℚ :=
  max 0 ((tdee - protein_g * 4 - tdee * 0.30) / 4)

end H

namespace H

/-- The rate actually computed by `calc_macros` matches the piecewise
description of claim C6. -/
theorem macroProteinRate_eq (activity goal : String) :
    macroProteinRate activity goal = claimProteinRate activity goal := by
  unfold macroProteinRate claimProteinRate
  by_cases hA : activity = "moderate" ∨ activity = "active" ∨ activity = "very_active" <;>
    by_cases hG : goal = "gain" <;>
      by_cases hL : goal = "lose" <;>
        simp [hA, hG, hL]

/-- The activity factor is one of the five table entries or the 1.375
default, hence strictly positive. -/
theorem activityFactor_pos (activity : String) : 0 < activityFactor activity := by
  unfold activityFactor
  split_ifs <;> norm_num

/-- C8: for all positive weight, height and age, the male and female BMR
formulas differ by exactly the constant 166 = 5 − (−161). -/
theorem C8_bmr_sex_gap (w h a : ℚ) (hw : 0 < w) (hh : 0 < h) (ha : 0 < a) :
    calc_bmr "male" w h a - calc_bmr "female" w h a = 166 := by
  norm_num +decide [calc_bmr]

theorem C8_bmr_sex_gap_witness :
    (0 : ℚ) < 70 ∧ (0 : ℚ) < 175 ∧ (0 : ℚ) < 30 ∧
      calc_bmr "male" 70 175 30 - calc_bmr "female" 70 175 30 = 166 :=
  ⟨by norm_num, by norm_num, by norm_num,
    C8_bmr_sex_gap 70 175 30 (by norm_num) (by norm_num) (by norm_num)⟩

/-- C7: relative to goal "maintain", goal "lose" scales TDEE by exactly
0.85, goal "gain" by exactly 1.10, and any other goal leaves it
unchanged, for every BMR and activity string. -/
theorem C7_goal_ratios (bmr : ℚ) (activity : String) :
    calc_tdee bmr activity "lose" = 0.85 * calc_tdee bmr activity "maintain" ∧
    calc_tdee bmr activity "gain" = 1.10 * calc_tdee bmr activity "maintain" ∧
    ∀ goal : String, goal ≠ "lose" → goal ≠ "gain" →
      calc_tdee bmr activity goal = calc_tdee bmr activity "maintain" := by
  refine ⟨?_, ?_, ?_⟩
  · simp +decide [calc_tdee]; ring
  · simp +decide [calc_tdee]; ring
  · intro goal h1 h2
    simp +decide [calc_tdee, h1, h2]

theorem C7_goal_ratios_witness :
    ("maintain" : String) ≠ "lose" ∧ ("maintain" : String) ≠ "gain" ∧
      calc_tdee 1648.75 "light" "maintain" = calc_tdee 1648.75 "light" "maintain" :=
  ⟨by decide, by decide,
    (C7_goal_ratios 1648.75 "light").2.2 "maintain" (by decide) (by decide)⟩

/-- C3 (amended): whenever the computed BMR is nonnegative, the computed
TDEE is nonnegative, for every activity and goal string. -/
theorem C3_tdee_nonneg (bmr : ℚ) (activity goal : String) (hb : 0 ≤ bmr) :
    0 ≤ calc_tdee bmr activity goal := by
  unfold calc_tdee
  dsimp only
  have hf : 0 < activityFactor activity := activityFactor_pos activity
  have h0 : 0 ≤ bmr * activityFactor activity := mul_nonneg hb hf.le
  split_ifs <;> nlinarith

theorem C3_tdee_nonneg_witness :
    (0 : ℚ) ≤ 1648.75 ∧ 0 ≤ calc_tdee 1648.75 "light" "maintain" :=
  ⟨by norm_num, C3_tdee_nonneg 1648.75 "light" "maintain" (by norm_num)⟩

/-- C3 (counterexample): a profile with strictly positive weight, height
and age on which the computed TDEE is negative, refuting "TDEE always
≥ 0". -/
theorem C3_counterexample :
    (0 : ℚ) < 1 ∧ (0 : ℚ) < 1 ∧ (0 : ℚ) < 1000 ∧
      calc_tdee (calc_bmr "male" 1 1 1000) "light" "maintain" < 0 := by
  refine ⟨by norm_num, by norm_num, by norm_num, ?_⟩
  norm_num +decide [calc_tdee, calc_bmr, activityFactor]

/-- C5: the carbohydrate computation of the source equals the claim's
formula max(0, (TDEE − protein×4 − TDEE×0.30)/4) and is nonnegative, for
every TDEE ≥ 0 and protein ≥ 0. -/
theorem C5_carbs_clamped (tdee protein_g : ℚ)
    (ht : 0 ≤ tdee) (hp : 0 ≤ protein_g) :
    carbs_g tdee protein_g = claimCarbs tdee protein_g ∧
      0 ≤ carbs_g tdee protein_g := by
  constructor
  · unfold carbs_g claimCarbs carbs_kcal fat_kcal
    rfl
  · exact le_max_left 0 _

theorem C5_carbs_clamped_witness :
    (0 : ℚ) ≤ 0 ∧ (0 : ℚ) ≤ 300 ∧
      (carbs_g 0 300 = claimCarbs 0 300 ∧ 0 ≤ carbs_g 0 300) ∧
      carbs_g 0 300 = 0 :=
  ⟨le_refl 0, by norm_num,
    C5_carbs_clamped 0 300 (le_refl 0) (by norm_num),
    by norm_num [carbs_g, carbs_kcal, fat_kcal]⟩

/-- C6: the protein rate is 0.8 g/kg (replaced by 1.2 g/kg for activity
moderate/active/very_active), plus 0.3 for goal "gain" and 0.2 for goal
"lose"; protein g/day is rate × weight rounded to 1 decimal and the
reported rate is rounded to 2 decimals. -/
theorem C6_protein_rule (weight : ℚ) (activity goal : String) :
    calc_macros weight activity goal =
      { protein_g_per_day := pyRound (claimProteinRate activity goal * weight) 1
        protein_g_per_kg := pyRound (claimProteinRate activity goal) 2 } := by
  unfold calc_macros
  rw [macroProteinRate_eq]

/-- C1 (counterexample): the pipeline's BMR at the example input is
1648.75, not the 1673.75 asserted by the claim. -/
theorem C1_counterexample : calc_bmr "male" 70 175 30 ≠ 1673.75 := by
  norm_num +decide [calc_bmr]

/-- C1 (amended): at sex="male", age=30, weight=70, height=175,
activity="light", goal="maintain" the pipeline yields BMR = 1648.75,
TDEE = 2267.03125 = BMR × 1.375, and protein 56.0 g/day at rate
0.8 g/kg. -/
theorem C1_pipeline :
    calc_bmr "male" 70 175 30 = 1648.75 ∧
      calc_tdee (calc_bmr "male" 70 175 30) "light" "maintain" = 2267.03125 ∧
      calc_tdee (calc_bmr "male" 70 175 30) "light" "maintain"
        = calc_bmr "male" 70 175 30 * 1.375 ∧
      calc_macros 70 "light" "maintain"
        = { protein_g_per_day := 56, protein_g_per_kg := 0.8 } := by
  refine ⟨?_, ?_, ?_, ?_⟩ <;>
    norm_num +decide [calc_bmr, calc_tdee, activityFactor, calc_macros,
      macroProteinRate, pyRound, roundHalfEven, MacroTargets.mk.injEq]

/-- C2 (counterexample): for the non-"male" sex "other" with
pregnant=true, the table's Iron value is the female base 18 mg, not the
27 mg the claim asserts: the override fires only on the literal
"female". -/
theorem C2_counterexample :
    (tableGet (base_micronutrient_table "other" 30 false true false) "Iron").map Prod.fst
        = some 18 ∧
      ¬ (tableGet (base_micronutrient_table "other" 30 false true false) "Iron").map Prod.fst
        = some 27 := by
  have h : (tableGet (base_micronutrient_table "other" 30 false true false) "Iron").map Prod.fst
      = some 18 := rfl
  refine ⟨h, ?_⟩
  rw [h]
  norm_num

/-- C2 (amended): the micronutrient overrides fire only when sex is the
literal "female"; for sex="female" with pregnant=true and
breastfeeding=false, the table has Iron = 27 mg and Folate = 600 µg DFE,
for every age and menstruating flag. -/
theorem C2_pregnancy_override (age : ℤ) (m : Bool) :
    tableGet (base_micronutrient_table "female" age m true false) "Iron"
        = some (27, "mg", "Pregnancy increased need") ∧
      tableGet (base_micronutrient_table "female" age m true false) "Folate (B9)"
        = some (600, "µg DFE", "Pregnancy increased need") := by
  cases m <;> exact ⟨rfl, rfl⟩

/-- C4: with sex="female" and both pregnant and breastfeeding true, the
breastfeeding override runs last, so Iron = 9 mg, Folate = 500 µg DFE
and Iodine = 290 µg. -/
theorem C4_breastfeeding_wins :
    tableGet (base_micronutrient_table "female" 30 false true true) "Iron"
        = some (9, "mg", "Postpartum needs lower than pregnancy") ∧
      tableGet (base_micronutrient_table "female" 30 false true true) "Folate (B9)"
        = some (500, "µg DFE", "Lactation increased need") ∧
      tableGet (base_micronutrient_table "female" 30 false true true) "Iodine"
        = some (290, "µg", "Lactation increased need") :=
  ⟨rfl, rfl, rfl⟩

/-- C9: for every sex string, age and flag combination, the returned
table's key list is exactly the fixed 26 nutrient keys: both base
tables carry the same keys and no override removes one. -/
theorem C9_key_sets (sex : String) (age : ℤ) (m p b : Bool) :
    (base_micronutrient_table sex age m p b).map Prod.fst = nutrientKeys := by
  by_cases h1 : sex = "male"
  · subst h1
    cases m <;> cases p <;> cases b <;> rfl
  · by_cases h2 : sex = "female"
    · subst h2
      cases m <;> cases p <;> cases b <;> rfl
    · simp [base_micronutrient_table, h1, h2, vitaminEntries, mineralEntries, nutrientKeys]

/-- C10: when sex is not the literal "female", the
menstruating/pregnant/breastfeeding flags have no effect on the returned
table. -/
theorem C10_flags_ignored (sex : String) (age : ℤ) (m p b m' p' b' : Bool)
    (h : sex ≠ "female") :
    base_micronutrient_table sex age m p b = base_micronutrient_table sex age m' p' b' := by
  simp [base_micronutrient_table, h]

theorem C10_flags_ignored_witness :
    ("male" : String) ≠ "female" ∧
      base_micronutrient_table "male" 30 true true true
        = base_micronutrient_table "male" 30 false false false :=
  ⟨by decide, C10_flags_ignored "male" 30 true true true false false false (by decide)⟩

end H
